import Mathlib

/-!
Verification of the model-comparison app (src/app.py) against its
specification.  The two components under specification are embedded here:

* the Request Dispatcher `make_api_call` (app.py lines 119-184), modelled as
  a function from an abstract HTTP outcome (network failure, or a response
  carrying a status code, raw text, decoded JSON body and measured elapsed
  time) to either a normalized `CallResult` or an uncaught Python exception;
* the Result Presenter `display_comparison_results` (app.py lines 187-283),
  modelled as the list of render events it emits, paired with the uncaught
  Python exception it raises, if any.

Elapsed times are embedded as rationals (Python floats; every concrete time
appearing in the spec and claims is exactly representable, and all the
arithmetic involved is exact at the inputs the claims quantify over).
Strings are Lean strings; whitespace is `Char.isWhitespace` (space, tab,
CR, LF), a faithful restriction of Python whitespace to the ASCII range.
-/

namespace CompareModel

/-- A decoded JSON value, as returned by `response.json()`.  Python decodes
JSON objects to dicts with (unique) string keys, arrays to lists, numbers to
int/float (merged into one numeric constructor here; no claim distinguishes
them), strings, booleans and null. -/
inductive Json where
  | null : Json
  | bool (b : Bool) : Json
  | num (q : ℚ) : Json
  | str (s : String) : Json
  | arr (elems : List Json) : Json
  | obj (fields : List (String × Json)) : Json

/-- The Python exceptions that the embedded code can raise.  The message
strings attached to `typeError` and `attributeError` mirror CPython texts
(no claim depends on their exact wording; apostrophes are elided). -/
inductive PyExn where
  | keyError (key : String) : PyExn
  | indexError : PyExn
  | typeError (msg : String) : PyExn
  | attributeError (msg : String) : PyExn
  | zeroDivisionError : PyExn
deriving DecidableEq

/-- Render of `str(e)` for the exceptions caught at app.py line 165, used to
build the parse-failure message `f"Failed to parse response: \x7bstr(e)\x7d"`. -/
def pyExnStr : PyExn → String
  | .keyError k => k
  | .indexError => "list index out of range"
  | .typeError m => m
  | .attributeError m => m
  | .zeroDivisionError => "division by zero"

/-- Python subscripting `j[key]` with a string key: dicts look the key up
(`KeyError` when absent); every other value raises `TypeError`. -/
def pySubscriptKey (j : Json) (key : String) : Except PyExn Json :=
  match j with
  | .obj fields =>
      match fields.lookup key with
      | some v => .ok v
      | none => .error (.keyError key)
  | .arr _ => .error (.typeError "list indices must be integers or slices, not str")
  | .str _ => .error (.typeError "string indices must be integers")
  | _ => .error (.typeError "object is not subscriptable")

/-- Python subscripting `j[0]`: lists yield their head (`IndexError` when
empty); dicts raise `KeyError` (decoded JSON objects have only string keys);
strings yield their first character as a one-character string (`IndexError`
when empty); everything else raises `TypeError`. -/
def pySubscriptZero (j : Json) : Except PyExn Json :=
  match j with
  | .arr [] => .error .indexError
  | .arr (x :: _) => .ok x
  | .obj _ => .error (.keyError "0")
  | .str s =>
      match s.data with
      | [] => .error .indexError
      | c :: _ => .ok (.str (String.mk [c]))
  | _ => .error (.typeError "object is not subscriptable")

/-- The extraction `result["choices"][0]["message"]["content"]`
(app.py line 150), with Python exception semantics.  Every exception it can
raise is a `KeyError`, `IndexError` or `TypeError`, i.e. lies in the tuple
caught at line 165. -/
def extractContent (result : Json) : Except PyExn Json := do
  let choices ← pySubscriptKey result "choices"
  let choice0 ← pySubscriptZero choices
  let message ← pySubscriptKey choice0 "message"
  pySubscriptKey message "content"

/-- Python falsiness `not content` of a decoded JSON value: None, False,
zero, and the empty string/list/dict are falsy. -/
def pyFalsy : Json → Bool
  | .null => true
  | .bool b => !b
  | .num q => decide (q = 0)
  | .str s => s.data.isEmpty
  | .arr elems => elems.isEmpty
  | .obj fields => fields.isEmpty

/-- The Python type name of a decoded JSON value, for AttributeError texts. -/
def pyTypeName : Json → String
  | .null => "NoneType"
  | .bool _ => "bool"
  | .num _ => "int"
  | .str _ => "str"
  | .arr _ => "list"
  | .obj _ => "dict"

/-- The sentinel substituted for an empty generation (app.py line 154). -/
def emptyPlaceholder : String := "[Empty response from model]"

/-- Python `s.strip() == ""`: true exactly when every character of `s` is
whitespace (true in particular for the empty string). -/
def pyStripEmpty (s : String) : Bool :=
  s.data.all Char.isWhitespace

/-- Lines 153-154 of app.py:
`if not content or content.strip() == "": content = "[Empty response from model]"`.
A falsy `content` of any type is replaced by the placeholder; a truthy
string is replaced exactly when it is all-whitespace; a truthy non-string
reaches `.strip()` and raises an `AttributeError`, which is NOT in the
`except (KeyError, IndexError, TypeError)` tuple and escapes the function. -/
def normalizeContent (content : Json) : Except PyExn String :=
  if pyFalsy content then .ok emptyPlaceholder
  else
    match content with
    | .str s => .ok (if pyStripEmpty s then emptyPlaceholder else s)
    | other => .error (.attributeError (pyTypeName other ++ " object has no attribute strip"))

/-- Python `s.split()` with no separator: the maximal runs of
non-whitespace characters, leading/trailing whitespace ignored.
`acc` holds the current word, reversed. -/
def splitWsAux : List Char → List Char → List String
  | [], acc => if acc.isEmpty then [] else [String.mk acc.reverse]
  | c :: cs, acc =>
      if c.isWhitespace then
        if acc.isEmpty then splitWsAux cs []
        else String.mk acc.reverse :: splitWsAux cs []
      else splitWsAux cs (c :: acc)

/-- The word list `content.split()` used for the word count and the
words-per-second figure (app.py lines 160 and 162). -/
def pyWords (s : String) : List String :=
  splitWsAux s.data []

/-- The normalized outcome of one call — the dict returned by
`make_api_call`.  Success carries the (possibly placeholder-substituted)
content, elapsed time, derived statistics and the decoded body; Failure
carries the error message, elapsed time, and — depending on the failure
path — an HTTP status code and/or the raw response text. -/
inductive CallResult where
  | success (content : String) (response_time : ℚ) (word_count : Nat)
      (char_count : Nat) (words_per_second : ℚ) (raw_response : Json) : CallResult
  | failure (errorMsg : String) (response_time : ℚ) (status_code : Option Nat)
      (raw_response : Option String) : CallResult

/-- Whether the result is the Success variant (`result["success"]`). -/
def CallResult.isSuccess : CallResult → Bool
  | .success _ _ _ _ _ _ => true
  | .failure _ _ _ _ => false

/-- The outcome of the HTTP POST at app.py lines 137-142, abstracting the
network:
* `netError`: a `requests.exceptions.RequestException` was raised
  (connection error, timeout, DNS failure); carries `str(e)`;
* `response`: a response arrived, carrying the status code, the raw text
  body, the decoded JSON body (or, when the body is not valid JSON, the
  decode-error text — `response.json()` then raises
  `requests.exceptions.JSONDecodeError`, a `RequestException`, so it is
  caught by the OUTER handler at line 179), and the measured elapsed time
  `end_time - start_time` (non-negative). -/
inductive HttpOutcome where
  | netError (exnText : String) : HttpOutcome
  | response (status_code : Nat) (text : String) (body : Except String Json)
      (elapsed : ℚ) : HttpOutcome

/-- The Request Dispatcher, app.py lines 119-184, as a function from the
HTTP outcome to either the returned result dict or an uncaught Python
exception (`.error`). -/
def make_api_call (outcome : HttpOutcome) : Except PyExn CallResult :=
  match outcome with
  | .netError exnText =>
      .ok (.failure ("Request failed: " ++ exnText) 0 none none)
  | .response status text body elapsed =>
      if status = 200 then
        match body with
        | .error decodeMsg =>
            .ok (.failure ("Request failed: " ++ decodeMsg) 0 none none)
        | .ok result =>
            match extractContent result with
            | .error e =>
                .ok (.failure ("Failed to parse response: " ++ pyExnStr e)
                  elapsed none (some text))
            | .ok contentJson =>
                match normalizeContent contentJson with
                | .error e => .error e
                | .ok content =>
                    .ok (.success content elapsed (pyWords content).length
                      content.data.length
                      (if 0 < elapsed then ((pyWords content).length : ℚ) / elapsed
                       else 0)
                      result)
      else
        .ok (.failure ("Error " ++ toString status ++ ": " ++ text)
          elapsed (some status) none)

/-- A render event emitted by the Presenter: the per-result panels
(lines 206-240), the performance-comparison header and metrics
(lines 244-265) and the text-statistics section (lines 267-283). -/
inductive Ev where
  | indSuccess (slot : Nat) (response_time : ℚ) (content : String)
      (emptyFlagged : Bool) : Ev
  | indFailure (slot : Nat) (errorMsg : String) (debugRaw : String)
      (status_code : Option Nat) : Ev
  | compHeader : Ev
  | compMetrics (t1 t2 : ℚ) (fasterModel : String) (speedImprovement : ℚ) : Ev
  | statsHeader : Ev
  | statsView (slot : Nat) (word_count char_count : Nat)
      (words_per_second : ℚ) : Ev
deriving DecidableEq

/-- The individual panel for one result (app.py lines 206-240): the success
panel shows the elapsed time and content (flagging the placeholder), the
failure panel shows the error message, the raw diagnostic payload
(`result.get("raw_response", "No debug info available")`) and the status
code when present. -/
def renderIndividual (slot : Nat) (r : CallResult) : Ev :=
  match r with
  | .success content t _ _ _ _ =>
      .indSuccess slot t content (content == emptyPlaceholder)
  | .failure err _ st raw =>
      .indFailure slot err (raw.getD "No debug info available") st

/-- Python division, which raises `ZeroDivisionError` on a zero divisor. -/
def pyDiv (a b : ℚ) : Except PyExn ℚ :=
  if b = 0 then .error .zeroDivisionError else .ok (a / b)

/-- The Result Presenter `display_comparison_results`, app.py lines
187-283: the list of render events emitted in order, paired with the
uncaught Python exception, if one is raised.  Both individual panels are
always emitted first; when both results succeeded, the
performance-comparison header is emitted (line 245), then
`speed_improvement = time_diff / max(t1, t2) * 100` (line 250) is computed
— raising `ZeroDivisionError` when both elapsed times are 0 — and, when
that succeeds, the comparison metrics and the statistics section follow.
`faster_model` (line 248) is `model1_name if t1 < t2 else model2_name`, so
on a tie the SECOND model is named. -/
def display_comparison_results (result1 result2 : CallResult)
    (model1_name model2_name : String) : List Ev × Option PyExn :=
  let e1 := renderIndividual 1 result1
  let e2 := renderIndividual 2 result2
  match result1, result2 with
  | .success _ t1 w1 c1 wps1 _, .success _ t2 w2 c2 wps2 _ =>
      let faster_model := if t1 < t2 then model1_name else model2_name
      let time_diff := |t1 - t2|
      match pyDiv time_diff (max t1 t2) with
      | .error e => ([e1, e2, .compHeader], some e)
      | .ok q =>
          let speed_improvement := q * 100
          ([e1, e2, .compHeader,
            .compMetrics t1 t2 faster_model speed_improvement,
            .statsHeader, .statsView 1 w1 c1 wps1, .statsView 2 w2 c2 wps2],
           none)
  | _, _ => ([e1, e2], none)

/-- Whether an event belongs to the performance-comparison part of the
report (the comparison header/metrics and the side-by-side statistics). -/
def isCompEv : Ev → Bool
  | .compHeader => true
  | .compMetrics _ _ _ _ => true
  | .statsHeader => true
  | .statsView _ _ _ _ => true
  | .indSuccess _ _ _ _ => false
  | .indFailure _ _ _ _ => false

/-- A decoded 200 body whose message content is the string "hello world";
used as a concrete input by several witnesses. -/
def sampleGoodBody : Json :=
  .obj [("choices", .arr [.obj [("message", .obj [("content", .str "hello world")])]])]

/-- A decoded 200 body whose message content is JSON null. -/
def sampleNullBody : Json :=
  .obj [("choices", .arr [.obj [("message", .obj [("content", .null)])]])]

/-- A decoded 200 body whose message content is the empty string. -/
def sampleBlankBody : Json :=
  .obj [("choices", .arr [.obj [("message", .obj [("content", .str "")])]])]

/-- C3: for every HTTP 200 response whose decoded body fails content
extraction (any KeyError, IndexError or TypeError raised by
`result["choices"][0]["message"]["content"]`), the Dispatcher returns a
Failure whose error message is the parse-failure message built from the
exception text, whose elapsed time is the measured HTTP elapsed time, and
which carries the raw text body. -/
theorem c3_parse_failure_normalized (text : String) (elapsed : ℚ) (j : Json)
    (e : PyExn) (h : extractContent j = .error e) :
    make_api_call (.response 200 text (.ok j) elapsed)
      = .ok (.failure ("Failed to parse response: " ++ pyExnStr e)
          elapsed none (some text)) := by
  simp [make_api_call, h]

/-- Witness for C3: a 200 body with no "choices" key raises KeyError and is
normalized to the corresponding Failure. -/
theorem c3_parse_failure_normalized_witness :
    extractContent (Json.obj []) = .error (.keyError "choices")
    ∧ make_api_call (.response 200 "raw body" (.ok (Json.obj [])) 2)
      = .ok (.failure ("Failed to parse response: " ++ pyExnStr (.keyError "choices"))
          2 none (some "raw body")) :=
  ⟨rfl, c3_parse_failure_normalized "raw body" 2 (Json.obj []) (.keyError "choices") rfl⟩

/-- C4: for every HTTP 200 response whose extracted content is a string
that is empty or all-whitespace, the Dispatcher returns a Success whose
content is the sentinel placeholder, not a Failure (statistics are then the
placeholder statistics). -/
theorem c4_blank_content_success (text : String) (elapsed : ℚ) (j : Json)
    (s : String) (hex : extractContent j = .ok (.str s))
    (hblank : pyStripEmpty s = true) :
    make_api_call (.response 200 text (.ok j) elapsed)
      = .ok (.success emptyPlaceholder elapsed (pyWords emptyPlaceholder).length
          emptyPlaceholder.data.length
          (if 0 < elapsed then ((pyWords emptyPlaceholder).length : ℚ) / elapsed
           else 0)
          j) := by
  have hnorm : normalizeContent (.str s) = .ok emptyPlaceholder := by
    unfold normalizeContent
    rcases hfal : pyFalsy (.str s) <;> simp [hfal, hblank]
  simp [make_api_call, hex, hnorm]

/-- Witness for C4: the spec's own example body with content "" yields
Success carrying the placeholder and its statistics (4 words, 27 chars). -/
theorem c4_blank_content_success_witness :
    extractContent sampleBlankBody = .ok (.str "")
    ∧ pyStripEmpty "" = true
    ∧ make_api_call (.response 200 "raw" (.ok sampleBlankBody) 2)
      = .ok (.success emptyPlaceholder 2 4 27 2 sampleBlankBody) := by
  refine ⟨rfl, rfl, ?_⟩
  have h := c4_blank_content_success "raw" 2 sampleBlankBody "" rfl rfl
  rw [h]
  norm_num [show (pyWords emptyPlaceholder).length = 4 from rfl,
    show emptyPlaceholder.data.length = 27 from rfl]

/-- C5: every Success result the Dispatcher returns has `word_count` the
whitespace-split token count of the content, `char_count` its length, and
`words_per_second` equal to `word_count / elapsed_time` when the elapsed
time is positive and to 0 when it is 0. -/
theorem c5_success_statistics (o : HttpOutcome) (content : String) (t : ℚ)
    (wc cc : Nat) (wps : ℚ) (raw : Json)
    (h : make_api_call o = .ok (.success content t wc cc wps raw)) :
    wc = (pyWords content).length ∧ cc = content.data.length
      ∧ (0 < t → wps = ((pyWords content).length : ℚ) / t)
      ∧ (t = 0 → wps = 0) := by
  cases o with
  | netError e => simp [make_api_call] at h
  | response status text body elapsed =>
    simp only [make_api_call] at h
    split at h
    · split at h
      · simp at h
      · split at h
        · simp at h
        · split at h
          · simp at h
          · simp only [Except.ok.injEq, CallResult.success.injEq] at h
            obtain ⟨hc, ht, hwc, hcc, hwps, hraw⟩ := h
            subst hc
            subst ht
            refine ⟨hwc.symm, hcc.symm, ?_, ?_⟩
            · intro h0
              rw [← hwps, if_pos h0]
            · intro h0
              rw [← hwps, if_neg]
              rw [h0]
              exact lt_irrefl 0
    · simp at h

/-- Witness for C5: a 200 response with content "hello world" and elapsed
time 1 yields Success with 2 words, 11 characters and 2 words per second,
and those figures satisfy the stated relations. -/
theorem c5_success_statistics_witness :
    make_api_call (.response 200 "" (.ok sampleGoodBody) 1)
      = .ok (.success "hello world" 1 2 11 2 sampleGoodBody)
    ∧ (2 = (pyWords "hello world").length ∧ 11 = "hello world".data.length
       ∧ ((0:ℚ) < 1 → (2:ℚ) = ((pyWords "hello world").length : ℚ) / 1)
       ∧ ((1:ℚ) = 0 → (2:ℚ) = 0)) := by
  have h1 : make_api_call (.response 200 "" (.ok sampleGoodBody) 1)
      = .ok (.success "hello world" 1 2 11 2 sampleGoodBody) := by
    show Except.ok (CallResult.success "hello world" 1 (pyWords "hello world").length
      "hello world".data.length
      (if (0:ℚ) < 1 then ((pyWords "hello world").length : ℚ) / 1 else 0)
      sampleGoodBody) = _
    norm_num [show (pyWords "hello world").length = 2 from rfl]
  exact ⟨h1, c5_success_statistics _ "hello world" 1 2 11 2 _ h1⟩

/-- C7: for every HTTP response with a status other than 200, the
Dispatcher returns a Failure whose message is exactly
"Error \x7bstatus\x7d: \x7bbody\x7d", whose elapsed time is the measured
elapsed time, and which carries the status code. -/
theorem c7_http_error_failure (status : Nat) (text : String)
    (body : Except String Json) (elapsed : ℚ) (h : status ≠ 200) :
    make_api_call (.response status text body elapsed)
      = .ok (.failure ("Error " ++ toString status ++ ": " ++ text)
          elapsed (some status) none) := by
  simp [make_api_call, h]

/-- Witness for C7: a 429 response with body "rate limited" yields a
Failure carrying status 429 whose message contains both the code and the
body text. -/
theorem c7_http_error_failure_witness :
    429 ≠ 200
    ∧ make_api_call (.response 429 "rate limited" (.ok .null) 1)
        = .ok (.failure "Error 429: rate limited" 1 (some 429) none)
    ∧ "Error 429: rate limited"
        = "Error " ++ toString 429 ++ ": " ++ "rate limited" := by
  refine ⟨by decide, ?_, rfl⟩
  exact c7_http_error_failure 429 "rate limited" (.ok .null) 1 (by decide)

/-- C8: for every network-level failure of the POST, the Dispatcher returns
a Failure with elapsed time 0, whose message carries the exception text
(prefixed by "Request failed: "), and with no status code and no raw body
attached. -/
theorem c8_network_failure_result (exnText : String) :
    make_api_call (.netError exnText)
      = .ok (.failure ("Request failed: " ++ exnText) 0 none none) := rfl

/-- C10: for every HTTP 200 response whose extracted content is JSON null
(the "content" key present with a null value), `not content` is true, so
the Dispatcher substitutes the placeholder and returns a Success whose
statistics are computed on the placeholder string, not a parse Failure. -/
theorem c10_null_content_success (text : String) (elapsed : ℚ) (j : Json)
    (h : extractContent j = .ok .null) :
    make_api_call (.response 200 text (.ok j) elapsed)
      = .ok (.success emptyPlaceholder elapsed (pyWords emptyPlaceholder).length
          emptyPlaceholder.data.length
          (if 0 < elapsed then ((pyWords emptyPlaceholder).length : ℚ) / elapsed
           else 0)
          j) := by
  simp [make_api_call, h, normalizeContent, pyFalsy]

/-- Witness for C10: a well-formed body with content null, elapsed time 2,
yields Success with the placeholder and its statistics. -/
theorem c10_null_content_success_witness :
    extractContent sampleNullBody = .ok .null
    ∧ make_api_call (.response 200 "" (.ok sampleNullBody) 2)
      = .ok (.success emptyPlaceholder 2 4 27 2 sampleNullBody) := by
  refine ⟨rfl, ?_⟩
  have h := c10_null_content_success "" 2 sampleNullBody rfl
  rw [h]
  norm_num [show (pyWords emptyPlaceholder).length = 4 from rfl,
    show emptyPlaceholder.data.length = 27 from rfl]

/-- C2 fails on the code, in two independent ways.  First, the Presenter
throws: with two Success results both having elapsed time 0, line 250
computes `time_diff / max(0, 0)` and raises an uncaught ZeroDivisionError
(the spec says the Presenter never throws, and the code itself guards the
analogous division in `words_per_second`, so this is a slip).  Second, the
Dispatcher lets an exception escape: a 200 response whose extracted content
is a truthy non-string (here the number 5) reaches `content.strip()` and
raises AttributeError, which is not in the
`except (KeyError, IndexError, TypeError)` tuple. -/
theorem c2_uncaught_exception_evidence :
    (display_comparison_results (.success "a" 0 1 1 0 .null)
        (.success "b" 0 1 1 0 .null) "m1" "m2").2 = some PyExn.zeroDivisionError
    ∧ make_api_call (.response 200 "body" (.ok (Json.obj [("choices",
        .arr [.obj [("message", .obj [("content", .num 5)])]])])) 1)
      = .error (.attributeError "int object has no attribute strip") :=
  ⟨rfl, rfl⟩

/-- C1 is false as stated: with both elapsed times equal to 1.0s, the
comparison at line 248 (`model1_name if t1 < t2 else model2_name`) has a
false condition, so the Presenter reports the SECOND model — not the first
— as the faster model (with a 0.0% improvement). -/
theorem c1_tie_reports_second_model :
    display_comparison_results (.success "x" 1 1 1 1 .null)
        (.success "y" 1 1 1 1 .null) "model-one" "model-two"
      = ([.indSuccess 1 1 "x" false, .indSuccess 2 1 "y" false, .compHeader,
          .compMetrics 1 1 "model-two" 0, .statsHeader, .statsView 1 1 1 1,
          .statsView 2 1 1 1], none) := by
  simp [display_comparison_results, renderIndividual, pyDiv]
  decide

/-- C1 amended: for every pair of Success results whose elapsed times are
exactly equal and positive, the Presenter reports the second model as the
faster model with a relative speed improvement of 0.0%, and raises no
exception.  (With both equal times zero it instead raises ZeroDivisionError
and reports no metrics.) -/
theorem c1_equal_positive_times (c1 c2 : String) (w1 h1 w2 h2 : Nat)
    (p1 p2 : ℚ) (r1 r2 : Json) (m1 m2 : String) (t : ℚ) (ht : 0 < t) :
    (Ev.compMetrics t t m2 0) ∈ (display_comparison_results
        (.success c1 t w1 h1 p1 r1) (.success c2 t w2 h2 p2 r2) m1 m2).1
    ∧ (display_comparison_results
        (.success c1 t w1 h1 p1 r1) (.success c2 t w2 h2 p2 r2) m1 m2).2
      = none := by
  constructor <;> simp [display_comparison_results, pyDiv, ht.ne', lt_irrefl]

/-- Witness for the amended C1 at equal elapsed times 1.0s. -/
theorem c1_equal_positive_times_witness :
    (0:ℚ) < 1
    ∧ (Ev.compMetrics 1 1 "model-two" 0) ∈ (display_comparison_results
        (.success "u" 1 1 1 1 .null) (.success "v" 1 1 1 1 .null)
        "model-one" "model-two").1
    ∧ (display_comparison_results (.success "u" 1 1 1 1 .null)
        (.success "v" 1 1 1 1 .null) "model-one" "model-two").2 = none :=
  ⟨by norm_num, c1_equal_positive_times "u" "v" 1 1 1 1 1 1 .null .null
    "model-one" "model-two" 1 (by norm_num)⟩

/-- C6: for every pair of Success results with non-negative elapsed times
not both zero, the Presenter reports as faster the model with strictly
lower elapsed time (the second model on a tie) and reports the relative
speed improvement |t1 - t2| / max(t1, t2) * 100 percent. -/
theorem c6_speed_improvement_formula (c1 c2 : String) (t1 t2 : ℚ)
    (w1 h1 w2 h2 : Nat) (p1 p2 : ℚ) (r1 r2 : Json) (m1 m2 : String)
    (ht1 : 0 ≤ t1) (ht2 : 0 ≤ t2) (hnz : ¬ (t1 = 0 ∧ t2 = 0)) :
    (Ev.compMetrics t1 t2 (if t1 < t2 then m1 else m2)
        (|t1 - t2| / max t1 t2 * 100))
      ∈ (display_comparison_results (.success c1 t1 w1 h1 p1 r1)
          (.success c2 t2 w2 h2 p2 r2) m1 m2).1 := by
  have hmax : max t1 t2 ≠ 0 := by
    intro h0
    exact hnz ⟨le_antisymm (h0 ▸ le_max_left t1 t2) ht1,
      le_antisymm (h0 ▸ le_max_right t1 t2) ht2⟩
  simp [display_comparison_results, pyDiv, hmax]

/-- Witness for C6 at the spec's example: elapsed times 1.0s and 2.0s give
the first model as faster with a 50.0% improvement. -/
theorem c6_speed_improvement_formula_witness :
    (Ev.compMetrics 1 2 "alpha" 50) ∈ (display_comparison_results
        (.success "x" 1 1 1 1 .null) (.success "y" 2 1 1 1 .null)
        "alpha" "beta").1 := by
  have h := c6_speed_improvement_formula "x" "y" 1 2 1 1 1 1 1 1 .null .null
    "alpha" "beta" (by norm_num) (by norm_num) (by norm_num)
  have h1 : (if (1:ℚ) < 2 then "alpha" else "beta") = "alpha" := by norm_num
  have h2 : |(1:ℚ) - 2| / max (1:ℚ) 2 * 100 = 50 := by
    rw [show max (1:ℚ) 2 = 2 from max_eq_right (by norm_num)]
    norm_num
  rw [h1, h2] at h
  exact h

/-- C9: for every pair of Call Results, some part of the
performance-comparison section is emitted exactly when both results are
Success; both individual panels are always rendered; and when at least one
result is a Failure no exception is raised (nothing of the comparison is
attempted). -/
theorem c9_comparison_section_iff (r1 r2 : CallResult) (m1 m2 : String) :
    ((∃ ev ∈ (display_comparison_results r1 r2 m1 m2).1, isCompEv ev = true)
        ↔ r1.isSuccess = true ∧ r2.isSuccess = true)
    ∧ renderIndividual 1 r1 ∈ (display_comparison_results r1 r2 m1 m2).1
    ∧ renderIndividual 2 r2 ∈ (display_comparison_results r1 r2 m1 m2).1
    ∧ (¬ (r1.isSuccess = true ∧ r2.isSuccess = true) →
        (display_comparison_results r1 r2 m1 m2).2 = none) := by
  cases r1 with
  | success c1 t1 w1 h1 p1 raw1 =>
    cases r2 with
    | success c2 t2 w2 h2 p2 raw2 =>
      refine ⟨?_, ?_, ?_, ?_⟩
      · constructor
        · intro _
          exact ⟨rfl, rfl⟩
        · intro _
          cases hdiv : pyDiv |t1 - t2| (max t1 t2) with
          | error e =>
            exact ⟨.compHeader, by simp [display_comparison_results, hdiv], rfl⟩
          | ok q =>
            exact ⟨.compHeader, by simp [display_comparison_results, hdiv], rfl⟩
      · cases hdiv : pyDiv |t1 - t2| (max t1 t2) with
        | error e => simp [display_comparison_results, hdiv, renderIndividual]
        | ok q => simp [display_comparison_results, hdiv, renderIndividual]
      · cases hdiv : pyDiv |t1 - t2| (max t1 t2) with
        | error e => simp [display_comparison_results, hdiv, renderIndividual]
        | ok q => simp [display_comparison_results, hdiv, renderIndividual]
      · intro hne
        exact absurd ⟨rfl, rfl⟩ hne
    | failure e2 t2 s2 raw2 =>
      refine ⟨?_, ?_, ?_, fun _ => rfl⟩
      · simp [display_comparison_results, renderIndividual, isCompEv,
          CallResult.isSuccess]
      · simp [display_comparison_results]
      · simp [display_comparison_results]
  | failure e1 t1 s1 raw1 =>
    refine ⟨?_, ?_, ?_, fun _ => ?_⟩
    · cases r2 <;>
        simp [display_comparison_results, renderIndividual, isCompEv,
          CallResult.isSuccess]
    · cases r2 <;> simp [display_comparison_results]
    · cases r2 <;> simp [display_comparison_results]
    · cases r2 <;> rfl

/-- Witness for C9 at a Failure paired with a Success: both panels render,
no comparison event appears, and no exception is raised. -/
theorem c9_comparison_section_iff_witness :
    (¬ ∃ ev ∈ (display_comparison_results (.failure "boom" 0 none none)
        (.success "hi" 1 2 2 2 .null) "m1" "m2").1, isCompEv ev = true)
    ∧ renderIndividual 1 (.failure "boom" 0 none none)
        ∈ (display_comparison_results (.failure "boom" 0 none none)
            (.success "hi" 1 2 2 2 .null) "m1" "m2").1
    ∧ renderIndividual 2 (.success "hi" 1 2 2 2 .null)
        ∈ (display_comparison_results (.failure "boom" 0 none none)
            (.success "hi" 1 2 2 2 .null) "m1" "m2").1
    ∧ (display_comparison_results (.failure "boom" 0 none none)
        (.success "hi" 1 2 2 2 .null) "m1" "m2").2 = none := by
  obtain ⟨hiff, h1, h2, h3⟩ := c9_comparison_section_iff
    (.failure "boom" 0 none none) (.success "hi" 1 2 2 2 .null) "m1" "m2"
  refine ⟨fun hex => ?_, h1, h2, h3 (by simp [CallResult.isSuccess])⟩
  have hboth := hiff.mp hex
  simp [CallResult.isSuccess] at hboth

end CompareModel
